import Mathlib

/-!
Verification of the Splunk HEC receiver (`src/receiver/splunkhecreceiver/receiver.go`)
and of the dynamic-value conversion of the Azure Event Hub receiver, as a
shallow embedding in Lean 4.

The HTTP handler `handleReq` is embedded as a pure function from an abstract
request (method, headers, declared content length, the sequence of top-level
JSON values in the decompressed body, the outcome of gzip-reader construction,
the access-token header) and a downstream-consumer outcome, to the finite trace
of observable actions it performs: header writes, body writes, the downstream
consume call, span-status assignments and span completions.
-/

namespace SplunkHec

/-- The fixed JSON response bodies of the receiver
(the `response*` constants of receiver.go, lines 43-50). -/
inductive RespBody
  | ok
  | invalidMethod
  | invalidContentType
  | invalidEncoding
  | errGzipReader
  | errUnmarshalBody
  | errNextConsumer
  | errUnsupportedMetricEvent
  deriving DecidableEq, Repr

/-- An arbitrary JSON-like value, the payload type of an Event Record's
`event` field and of the entries of its `fields` mapping. -/
inductive JsonVal
  | null
  | str (s : String)
  | num (n : Int)
  | bool (b : Bool)
  | arr (xs : List JsonVal)
  | obj (kvs : List (String × JsonVal))

/-- The wire-level decoded unit (`splunk.Event`): time, host, source,
sourcetype, index, raw body, fields.  `metricFields` is the boolean
discriminant of the record.

Modelled from the spec: the package `internal/common/splunk` that defines
`Event` and its `IsMetric` method is code of this repository that is not under
`src/`; per the spec's data model the record carries "a boolean discriminant
derived from presence of metric-specific fields", which we carry directly as
the field `metricFields`. -/
structure SplunkEvent where
  time : Option Int
  host : String
  source : String
  sourcetype : String
  index : String
  event : JsonVal
  fields : List (String × JsonVal)
  metricFields : Bool

/-- Modelled from the spec: `Event.IsMetric` (not under `src/`) reports the
boolean discriminant of the record. -/
def SplunkEvent.IsMetric (e : SplunkEvent) : Bool := e.metricFields

/-- One top-level JSON value of the request body stream: either a value that
fails to parse as a well-formed Event Record, or a decoded Event Record. -/
inductive BodyItem
  | malformed
  | ok (e : SplunkEvent)

/-- A canonical log record of the assembled batch: body plus attributes. -/
structure LogRecord where
  body : JsonVal
  attributes : List (String × JsonVal)

/-- The resource context of a batch: its attribute mapping. -/
structure Resource where
  attributes : List (String × String)

/-- One scope (`InstrumentationLibraryLogs`) of the batch: an ordered
sequence of log records. -/
structure IllLogs where
  logs : List LogRecord

/-- One `ResourceLogs` entry: a resource wrapping its scopes. -/
structure ResourceLogs where
  resource : Resource
  ills : List IllLogs

/-- The Log Record Batch (`pdata.Logs`). -/
structure Logs where
  resourceLogs : List ResourceLogs

/-- Tracing-span status codes distinguished by `failRequest`
(opencensus `StatusCodeInvalidArgument` / `StatusCodeInternal`). -/
inductive SpanCode
  | invalidArgument
  | internal
  deriving DecidableEq, Repr

/-- One observable action of the handler, in program order:
`writeHeader`/`write` on the `http.ResponseWriter`, the synchronous
`ConsumeLogs` call, a span-status assignment, the explicit `reqSpan.End()` of
`failRequest`, and `endReceiveOp` for `obsreport.EndMetricsReceiveOp`, which
per the collector library's contract completes the receive-operation span
started at the top of the handler. -/
inductive Action
  | writeHeader (status : Nat)
  | write (body : RespBody)
  | consume (ld : Logs)
  | setSpanStatus (code : SpanCode)
  | endSpan
  | endReceiveOp

/-- The receiver configuration bits the handler reads. -/
structure Config where
  accessTokenPassthrough : Bool

/-- The abstract inbound HTTP request.

`contentLength` is the declared `req.ContentLength` (`-1` for unknown length,
e.g. chunked transfer encoding).  `gzipOk` is whether `gzip.NewReader`
succeeds on the raw body.  `body` is the sequence of top-level JSON values of
the (decompressed) body stream, each either malformed or a decoded Event
Record.  `accessToken` is the value of the Splunk HEC token header (`""` when
absent, as returned by `Header.Get`). -/
structure HecRequest where
  method : String
  contentType : String
  contentEncoding : String
  contentLength : Int
  gzipOk : Bool
  body : List BodyItem
  accessToken : String

/-- Physical well-formedness of an abstract request: a declared content length
of `0` means the raw body is empty, hence the body stream holds no JSON values
and — since the empty byte sequence is not a well-formed gzip stream, whose
header is at least ten bytes — `gzip.NewReader` fails on it. -/
def HecRequest.Wf (req : HecRequest) : Prop :=
  req.contentLength = 0 →
    req.body = [] ∧ (req.contentEncoding = "gzip" → req.gzipOk = false)

/-- The trace of `failRequest` (receiver.go lines 260-303): write the status
header, write the JSON body (all fixed bodies are non-empty), set the span
status (`internal` for 500, `invalidArgument` otherwise) and end the span. -/
def failRequest (status : Nat) (body : RespBody) : List Action :=
  [Action.writeHeader status, Action.write body,
   Action.setSpanStatus
     (if status = 500 then SpanCode.internal else SpanCode.invalidArgument),
   Action.endSpan]

/-- The decode loop of `handleReq` (receiver.go lines 203-218): decode one
value at a time; the first value that fails to unmarshal aborts with an
unmarshal error; a decoded record that is a metric event aborts with an
unsupported-metric error; otherwise the record is appended in arrival order. -/
inductive DecodeErr
  | unmarshal
  | unsupportedMetric
  deriving DecidableEq, Repr

def decodeLoop : List BodyItem → Except DecodeErr (List SplunkEvent)
  | [] => Except.ok []
  | BodyItem.malformed :: _ => Except.error DecodeErr.unmarshal
  | BodyItem.ok e :: rest =>
      if e.IsMetric then Except.error DecodeErr.unsupportedMetric
      else (decodeLoop rest).map (fun es => e :: es)

/-- Modelled from the spec: `SplunkHecToLogData` (same package, not under
`src/`) turns the ordered accepted Event Records into one log record per
record, in the same order, "each log record's body set to the raw event body
and attributes set from the event's field mapping". -/
def toLogRecord (e : SplunkEvent) : LogRecord :=
  { body := e.event, attributes := e.fields }

def SplunkHecToLogData (events : List SplunkEvent) : List LogRecord :=
  events.map toLogRecord

/-- The Splunk HEC token resource-attribute key (`splunk.SplunkHecTokenLabel`). -/
def splunkHecTokenLabel : String := "com.splunk.hec.access_token"

/-- The resource of the assembled batch (receiver.go lines 230, 238-243):
empty, except that when passthrough is configured and the token header is
non-empty the token is inserted under the fixed key. -/
def mkResource (cfg : Config) (req : HecRequest) : Resource :=
  if cfg.accessTokenPassthrough ∧ req.accessToken ≠ "" then
    { attributes := [(splunkHecTokenLabel, req.accessToken)] }
  else
    { attributes := [] }

/-- The batch assembly of `handleReq` (receiver.go lines 220-243): resize the
resource-logs slice to one, resize its scope slice to one, and move the
converted records into that single scope. -/
def assemble (cfg : Config) (req : HecRequest) (events : List SplunkEvent) :
    Logs :=
  { resourceLogs :=
      [{ resource := mkResource cfg req
         ills := [{ logs := SplunkHecToLogData events }] }] }

/-- The handler `handleReq` (receiver.go lines 158-258) as a trace of
observable actions.  `consumerErr` is the outcome the downstream consumer
returns for this request's `ConsumeLogs` call (`true` = failure).

Control flow, in source order: method check, content-type check,
content-encoding check, gzip-reader construction, empty-declared-length
short-circuit (a bare `resp.Write`, which per the net/http contract sends an
implicit 200 header), the decode loop, batch assembly, the synchronous
consume call, `EndMetricsReceiveOp`, and the final success or failure write. -/
def handleReq (cfg : Config) (req : HecRequest) (consumerErr : Bool) :
    List Action :=
  if req.method ≠ "POST" then
    failRequest 400 RespBody.invalidMethod
  else if req.contentType ≠ "application/json" then
    failRequest 415 RespBody.invalidContentType
  else if req.contentEncoding ≠ "" ∧ req.contentEncoding ≠ "gzip" then
    failRequest 415 RespBody.invalidEncoding
  else if req.contentEncoding = "gzip" ∧ req.gzipOk = false then
    failRequest 400 RespBody.errGzipReader
  else if req.contentLength = 0 then
    [Action.write RespBody.ok]
  else
    match decodeLoop req.body with
    | Except.error DecodeErr.unmarshal =>
        failRequest 400 RespBody.errUnmarshalBody
    | Except.error DecodeErr.unsupportedMetric =>
        failRequest 400 RespBody.errUnsupportedMetricEvent
    | Except.ok events =>
        Action.consume (assemble cfg req events) ::
        Action.endReceiveOp ::
        (if consumerErr then
          failRequest 500 RespBody.errNextConsumer
        else
          [Action.writeHeader 202, Action.write RespBody.ok])

/-- The HTTP status of a trace: the status of the first explicit header write,
or 200 when the first response action is a bare body write (the net/http
implicit header). -/
def respStatus : List Action → Option Nat
  | [] => none
  | Action.writeHeader s :: _ => some s
  | Action.write _ :: _ => some 200
  | _ :: tr => respStatus tr

/-- The response bodies written by a trace, in order. -/
def bodyWrites : List Action → List RespBody
  | [] => []
  | Action.write b :: tr => b :: bodyWrites tr
  | _ :: tr => bodyWrites tr

/-- The batches handed to the downstream consumer by a trace, in order. -/
def consumedBatches : List Action → List Logs
  | [] => []
  | Action.consume ld :: tr => ld :: consumedBatches tr
  | _ :: tr => consumedBatches tr

/-- The span-status codes set by a trace, in order. -/
def spanStatuses : List Action → List SpanCode
  | [] => []
  | Action.setSpanStatus c :: tr => c :: spanStatuses tr
  | _ :: tr => spanStatuses tr

/-- The number of span completions a trace performs: explicit `reqSpan.End()`
calls plus the span end performed inside `EndMetricsReceiveOp`. -/
def spanEndCount : List Action → Nat
  | [] => 0
  | Action.endSpan :: tr => spanEndCount tr + 1
  | Action.endReceiveOp :: tr => spanEndCount tr + 1
  | _ :: tr => spanEndCount tr

/-- The three header validations of receiver.go lines 166-180 all pass. -/
def headersOk (req : HecRequest) : Prop :=
  req.method = "POST" ∧ req.contentType = "application/json" ∧
    (req.contentEncoding = "" ∨ req.contentEncoding = "gzip")

/-- Gzip-reader construction does not reject the request: either the body is
not gzip-encoded, or `gzip.NewReader` succeeds. -/
def encReaderOk (req : HecRequest) : Prop :=
  req.contentEncoding = "gzip" → req.gzipOk = true

/-- The two server-termination operations of net/http: `Close`, which
immediately closes the listener and any active connections, and graceful
`Shutdown`, which closes the listener and then waits for in-flight handlers. -/
inductive ServerStopOp
  | close
  | gracefulShutdown
  deriving DecidableEq, Repr

/-- The net/http contract of each termination operation: `Close` closes the
listener. `Shutdown` also closes the listener. -/
def closesListener : ServerStopOp → Bool
  | ServerStopOp.close => true
  | ServerStopOp.gracefulShutdown => true

/-- The net/http contract of each termination operation: `Close` "immediately
closes all active net.Listeners and any connections"; it does not wait for
handlers to finish — "for a graceful shutdown, use Shutdown", which drains
in-flight requests before returning. -/
def waitsForInflight : ServerStopOp → Bool
  | ServerStopOp.close => false
  | ServerStopOp.gracefulShutdown => true

/-- The net/http contract, at the level of in-flight handlers: given the
number of request handlers in flight when the termination call is made, the
number still unfinished when the call returns.  `Close` returns immediately,
leaving all in-flight handlers unfinished (their connections are torn down
under them); graceful `Shutdown` returns only once all have finished. -/
def inflightAtReturn : ServerStopOp → Nat → Nat
  | ServerStopOp.close, n => n
  | ServerStopOp.gracefulShutdown, _ => 0

/-- The operation `splunkReceiver.Shutdown` performs on its server
(receiver.go line 153): `r.server.Close()`. -/
def splunkShutdownOp : ServerStopOp := ServerStopOp.close

end SplunkHec

namespace AzureEventHub

/-!
The dynamic-value conversion `newValueFromRaw` of the Azure Event Hub
receiver.  Only its test (`src/receiver/azureeventhubreceiver/client_test.go`,
`Test_newValueFromRaw`) is under `src/`; the function itself is code of this
repository that is not, so it is modelled from the spec's §3 Value data model:
a tagged union over null, string, signed and unsigned integers of all widths,
32/64-bit floats, bool, byte sequences, string-keyed mappings and sequences,
whose conversion from an untyped source "must fail with an explicit
'unsupported type' error for any value outside this closed set", "is total
over the supported set and must preserve numeric width and sign", and on
failure returns an empty Value, never a partial one.

Float payloads are carried as their IEEE-754 bit patterns (no float
arithmetic is performed by the conversion).
-/

/-- An untyped/dynamic source value (an empty-interface value).  The
`unsupported` constructor stands for any value outside the closed supported
set, e.g. a pointer to an unrelated structured object such as a `&Config`
reference. -/
inductive RawValue
  | null
  | str (s : String)
  | int (n : Int)
  | i8 (n : Int)
  | i16 (n : Int)
  | i32 (n : Int)
  | i64 (n : Int)
  | uint (n : Nat)
  | u8 (n : Nat)
  | u16 (n : Nat)
  | u32 (n : Nat)
  | u64 (n : Nat)
  | f32 (bits : Nat)
  | f64 (bits : Nat)
  | bool (b : Bool)
  | bytes (bs : List Nat)
  | map (kvs : List (String × RawValue))
  | seq (xs : List RawValue)
  | unsupported (tag : String)

/-- The tagged Value union of the spec's §3 data model, plus the empty value
returned alongside a conversion error. -/
inductive PValue
  | empty
  | str (s : String)
  | int (n : Int)
  | i8 (n : Int)
  | i16 (n : Int)
  | i32 (n : Int)
  | i64 (n : Int)
  | uint (n : Nat)
  | u8 (n : Nat)
  | u16 (n : Nat)
  | u32 (n : Nat)
  | u64 (n : Nat)
  | f32 (bits : Nat)
  | f64 (bits : Nat)
  | bool (b : Bool)
  | bytes (bs : List Nat)
  | map (kvs : List (String × PValue))
  | seq (xs : List PValue)

/-- The fixed conversion error. -/
def unsupportedTypeErr : String := "unsupported type"

mutual

/-- Modelled from the spec: `newValueFromRaw` converts an untyped source value
to the tagged union, preserving numeric width and sign, recursing through
mappings and sequences; any value outside the closed supported set yields the
explicit unsupported-type error together with an empty Value, never a
partially-converted value.  The Go function returns a `(pcommon.Value, error)`
pair, embedded here as `PValue × Option String`. -/
def newValueFromRaw : RawValue → PValue × Option String
  | RawValue.null => (PValue.empty, none)
  | RawValue.str s => (PValue.str s, none)
  | RawValue.int n => (PValue.int n, none)
  | RawValue.i8 n => (PValue.i8 n, none)
  | RawValue.i16 n => (PValue.i16 n, none)
  | RawValue.i32 n => (PValue.i32 n, none)
  | RawValue.i64 n => (PValue.i64 n, none)
  | RawValue.uint n => (PValue.uint n, none)
  | RawValue.u8 n => (PValue.u8 n, none)
  | RawValue.u16 n => (PValue.u16 n, none)
  | RawValue.u32 n => (PValue.u32 n, none)
  | RawValue.u64 n => (PValue.u64 n, none)
  | RawValue.f32 bits => (PValue.f32 bits, none)
  | RawValue.f64 bits => (PValue.f64 bits, none)
  | RawValue.bool b => (PValue.bool b, none)
  | RawValue.bytes bs => (PValue.bytes bs, none)
  | RawValue.map kvs =>
      match convEntries kvs with
      | some pkvs => (PValue.map pkvs, none)
      | none => (PValue.empty, some unsupportedTypeErr)
  | RawValue.seq xs =>
      match convList xs with
      | some pxs => (PValue.seq pxs, none)
      | none => (PValue.empty, some unsupportedTypeErr)
  | RawValue.unsupported _ => (PValue.empty, some unsupportedTypeErr)

/-- Convert the entries of a string-keyed mapping; `none` when any entry
fails. -/
def convEntries : List (String × RawValue) → Option (List (String × PValue))
  | [] => some []
  | (k, v) :: rest =>
      match newValueFromRaw v with
      | (pv, none) =>
          match convEntries rest with
          | some prest => some ((k, pv) :: prest)
          | none => none
      | (_, some _) => none

/-- Convert the elements of a sequence; `none` when any element fails. -/
def convList : List RawValue → Option (List PValue)
  | [] => some []
  | v :: rest =>
      match newValueFromRaw v with
      | (pv, none) =>
          match convList rest with
          | some prest => some (pv :: prest)
          | none => none
      | (_, some _) => none

end

mutual

/-- The closed supported set, recursively: every constructor of the §3 union,
with mappings and sequences supported exactly when all their members are. -/
def RawValue.supported : RawValue → Bool
  | RawValue.map kvs => supportedEntries kvs
  | RawValue.seq xs => supportedList xs
  | RawValue.unsupported _ => false
  | _ => true

def supportedEntries : List (String × RawValue) → Bool
  | [] => true
  | (_, v) :: rest => v.supported && supportedEntries rest

def supportedList : List RawValue → Bool
  | [] => true
  | v :: rest => v.supported && supportedList rest

end

end AzureEventHub

namespace SplunkHec

/-! ### Helper lemmas about the handler -/

theorem decodeLoop_append_metric (pre : List BodyItem) (m : SplunkEvent)
    (rest : List BodyItem)
    (hpre : ∀ x ∈ pre, ∃ e, x = BodyItem.ok e ∧ e.IsMetric = false)
    (hm : m.IsMetric = true) :
    decodeLoop (pre ++ BodyItem.ok m :: rest) =
      Except.error DecodeErr.unsupportedMetric := by
  induction pre with
  | nil => simp [decodeLoop, hm]
  | cons x xs ih =>
      obtain ⟨e, rfl, he⟩ := hpre x (List.mem_cons_self x xs)
      have ih2 := ih (fun y hy => hpre y (List.mem_cons_of_mem _ hy))
      simp [decodeLoop, he, ih2, Except.map]

theorem decodeLoop_append_malformed (pre : List BodyItem) (rest : List BodyItem)
    (hpre : ∀ x ∈ pre, ∃ e, x = BodyItem.ok e ∧ e.IsMetric = false) :
    decodeLoop (pre ++ BodyItem.malformed :: rest) =
      Except.error DecodeErr.unmarshal := by
  induction pre with
  | nil => simp [decodeLoop]
  | cons x xs ih =>
      obtain ⟨e, rfl, he⟩ := hpre x (List.mem_cons_self x xs)
      have ih2 := ih (fun y hy => hpre y (List.mem_cons_of_mem _ hy))
      simp [decodeLoop, he, ih2, Except.map]

/-- Under passing header validation, successful gzip-reader construction and a
nonzero declared length, the handler is the decode-and-consume tail of
receiver.go lines 197-258. -/
theorem handleReq_eq_decode (cfg : Config) (req : HecRequest) (b : Bool)
    (h1 : headersOk req) (h2 : encReaderOk req)
    (h3 : req.contentLength ≠ 0) :
    handleReq cfg req b =
      match decodeLoop req.body with
      | Except.error DecodeErr.unmarshal =>
          failRequest 400 RespBody.errUnmarshalBody
      | Except.error DecodeErr.unsupportedMetric =>
          failRequest 400 RespBody.errUnsupportedMetricEvent
      | Except.ok events =>
          Action.consume (assemble cfg req events) :: Action.endReceiveOp ::
            (if b then failRequest 500 RespBody.errNextConsumer
             else [Action.writeHeader 202, Action.write RespBody.ok]) := by
  obtain ⟨hm, hct, henc⟩ := h1
  have c1 : ¬ req.method ≠ "POST" := fun h => h hm
  have c2 : ¬ req.contentType ≠ "application/json" := fun h => h hct
  have c3 : ¬ (req.contentEncoding ≠ "" ∧ req.contentEncoding ≠ "gzip") := by
    rcases henc with h | h
    · exact fun hc => hc.1 h
    · exact fun hc => hc.2 h
  have c4 : ¬ (req.contentEncoding = "gzip" ∧ req.gzipOk = false) := by
    rintro ⟨hg, hgo⟩
    rw [h2 hg] at hgo
    exact Bool.noConfusion hgo
  simp only [handleReq, if_neg c1, if_neg c2, if_neg c3, if_neg c4, if_neg h3]

theorem handleReq_decode_unmarshal (cfg : Config) (req : HecRequest) (b : Bool)
    (h1 : headersOk req) (h2 : encReaderOk req) (h3 : req.contentLength ≠ 0)
    (hdec : decodeLoop req.body = Except.error DecodeErr.unmarshal) :
    handleReq cfg req b = failRequest 400 RespBody.errUnmarshalBody := by
  rw [handleReq_eq_decode cfg req b h1 h2 h3, hdec]

theorem handleReq_decode_metric (cfg : Config) (req : HecRequest) (b : Bool)
    (h1 : headersOk req) (h2 : encReaderOk req) (h3 : req.contentLength ≠ 0)
    (hdec : decodeLoop req.body = Except.error DecodeErr.unsupportedMetric) :
    handleReq cfg req b = failRequest 400 RespBody.errUnsupportedMetricEvent := by
  rw [handleReq_eq_decode cfg req b h1 h2 h3, hdec]

theorem handleReq_decode_ok (cfg : Config) (req : HecRequest) (b : Bool)
    (events : List SplunkEvent)
    (h1 : headersOk req) (h2 : encReaderOk req) (h3 : req.contentLength ≠ 0)
    (hdec : decodeLoop req.body = Except.ok events) :
    handleReq cfg req b =
      Action.consume (assemble cfg req events) :: Action.endReceiveOp ::
        (if b then failRequest 500 RespBody.errNextConsumer
         else [Action.writeHeader 202, Action.write RespBody.ok]) := by
  rw [handleReq_eq_decode cfg req b h1 h2 h3, hdec]

/-! ### Concrete fixtures used by witnesses and counterexamples -/

/-- A configuration without token passthrough. -/
def cfg0 : Config := { accessTokenPassthrough := false }

/-- A concrete metric-typed Event Record. -/
def metricEv : SplunkEvent :=
  { time := none, host := "h", source := "s", sourcetype := "st",
    index := "i", event := JsonVal.str "metric", fields := [],
    metricFields := true }

/-- A concrete log-typed Event Record. -/
def logEv : SplunkEvent :=
  { time := none, host := "h", source := "s", sourcetype := "st",
    index := "i", event := JsonVal.str "hello",
    fields := [("f", JsonVal.num 1)], metricFields := false }

/-- A validation-passing request template: POST, JSON content type, identity
encoding, body of two well-formed log events, declared length 42. -/
def twoLogsReq : HecRequest :=
  { method := "POST", contentType := "application/json",
    contentEncoding := "", contentLength := 42, gzipOk := true,
    body := [BodyItem.ok logEv, BodyItem.ok logEv], accessToken := "" }

/-- A GET request (otherwise valid). -/
def getReq : HecRequest := { twoLogsReq with method := "GET" }

/-- A POST with `text/plain` content type. -/
def textPlainReq : HecRequest := { twoLogsReq with contentType := "text/plain" }

/-- A POST with an unsupported `deflate` content encoding. -/
def deflateReq : HecRequest :=
  { twoLogsReq with contentEncoding := "deflate" }

/-- A validation-passing request declaring a zero-length body. -/
def emptyPostReq : HecRequest :=
  { twoLogsReq with contentLength := 0, body := [] }

/-- A gzip-encoded request declaring a zero-length body: the empty raw body is
not a well-formed gzip stream, so gzip-reader construction fails. -/
def gzipZeroReq : HecRequest :=
  { twoLogsReq with
    contentEncoding := "gzip", contentLength := 0,
    gzipOk := false, body := [] }

/-- A request whose body holds a malformed value followed by a metric event. -/
def malformedThenMetricReq : HecRequest :=
  { twoLogsReq with body := [BodyItem.malformed, BodyItem.ok metricEv] }

/-- A request whose body holds a metric event followed by a malformed value. -/
def metricThenMalformedReq : HecRequest :=
  { twoLogsReq with body := [BodyItem.ok metricEv, BodyItem.malformed] }

/-- A request whose body holds a log event followed by a metric event. -/
def logThenMetricReq : HecRequest :=
  { twoLogsReq with body := [BodyItem.ok logEv, BodyItem.ok metricEv] }

/-- A request whose body holds a log event followed by a malformed value. -/
def logThenMalformedReq : HecRequest :=
  { twoLogsReq with body := [BodyItem.ok logEv, BodyItem.malformed] }

/-- A chunked-transfer request: unknown declared length (`-1`), a body stream
holding zero JSON values. -/
def chunkedEmptyReq : HecRequest :=
  { twoLogsReq with contentLength := -1, body := [] }

/-! ### Claims C5 and C4 -/

/-- Claim C5: request validation returns the first applicable rejection in the
fixed order method, then content-type, then content-encoding.  A non-POST
method yields status 400 with the invalid-method body; then a Content-Type
other than `application/json` yields status 415 with the invalid-content-type
body; then a Content-Encoding that is neither empty nor `gzip` yields status
415 with the invalid-encoding body.  In each case the whole trace is the
`failRequest` rejection: the body stream is never decoded and nothing reaches
the consumer. -/
theorem validation_first_rejection (cfg : Config) (req : HecRequest) (b : Bool) :
    (req.method ≠ "POST" →
      handleReq cfg req b = failRequest 400 RespBody.invalidMethod ∧
        respStatus (handleReq cfg req b) = some 400 ∧
        bodyWrites (handleReq cfg req b) = [RespBody.invalidMethod]) ∧
    (req.method = "POST" → req.contentType ≠ "application/json" →
      handleReq cfg req b = failRequest 415 RespBody.invalidContentType ∧
        respStatus (handleReq cfg req b) = some 415 ∧
        bodyWrites (handleReq cfg req b) = [RespBody.invalidContentType]) ∧
    (req.method = "POST" → req.contentType = "application/json" →
      req.contentEncoding ≠ "" → req.contentEncoding ≠ "gzip" →
      handleReq cfg req b = failRequest 415 RespBody.invalidEncoding ∧
        respStatus (handleReq cfg req b) = some 415 ∧
        bodyWrites (handleReq cfg req b) = [RespBody.invalidEncoding]) := by
  refine ⟨fun h1 => ?_, fun h1 h2 => ?_, fun h1 h2 h3 h4 => ?_⟩
  · have he : handleReq cfg req b = failRequest 400 RespBody.invalidMethod := by
      simp only [handleReq, if_pos h1]
    exact ⟨he, by rw [he]; rfl, by rw [he]; rfl⟩
  · have he : handleReq cfg req b = failRequest 415 RespBody.invalidContentType := by
      have c1 : ¬ req.method ≠ "POST" := fun h => h h1
      simp only [handleReq, if_neg c1, if_pos h2]
    exact ⟨he, by rw [he]; rfl, by rw [he]; rfl⟩
  · have he : handleReq cfg req b = failRequest 415 RespBody.invalidEncoding := by
      have c1 : ¬ req.method ≠ "POST" := fun h => h h1
      have c2 : ¬ req.contentType ≠ "application/json" := fun h => h h2
      simp only [handleReq, if_neg c1, if_neg c2, if_pos (And.intro h3 h4)]
    exact ⟨he, by rw [he]; rfl, by rw [he]; rfl⟩

/-- Witness for claim C5, at a GET request, a `text/plain` request and a
`deflate`-encoded request. -/
theorem validation_first_rejection_witness :
    (handleReq cfg0 getReq false = failRequest 400 RespBody.invalidMethod ∧
      respStatus (handleReq cfg0 getReq false) = some 400 ∧
      bodyWrites (handleReq cfg0 getReq false) = [RespBody.invalidMethod]) ∧
    (handleReq cfg0 textPlainReq false =
        failRequest 415 RespBody.invalidContentType ∧
      respStatus (handleReq cfg0 textPlainReq false) = some 415 ∧
      bodyWrites (handleReq cfg0 textPlainReq false) =
        [RespBody.invalidContentType]) ∧
    (handleReq cfg0 deflateReq false = failRequest 415 RespBody.invalidEncoding ∧
      respStatus (handleReq cfg0 deflateReq false) = some 415 ∧
      bodyWrites (handleReq cfg0 deflateReq false) =
        [RespBody.invalidEncoding]) :=
  ⟨(validation_first_rejection cfg0 getReq false).1 (by decide),
   (validation_first_rejection cfg0 textPlainReq false).2.1 rfl (by decide),
   (validation_first_rejection cfg0 deflateReq false).2.2 rfl rfl
     (by decide) (by decide)⟩

/-- Claim C4 counterexample: a request that passes method, content-type and
content-encoding validation (`gzip` is an accepted encoding) and declares a
zero-length body, yet is answered 400 with the gzip-error body rather than
200 `"OK"`: with `Content-Encoding: gzip` the handler constructs the gzip
reader before looking at `ContentLength`, and on the empty raw body — which is
never a well-formed gzip stream — that construction fails. -/
theorem empty_body_gzip_counterexample :
    headersOk gzipZeroReq ∧ gzipZeroReq.Wf ∧ gzipZeroReq.contentLength = 0 ∧
      respStatus (handleReq cfg0 gzipZeroReq false) ≠ some 200 ∧
      respStatus (handleReq cfg0 gzipZeroReq false) = some 400 ∧
      bodyWrites (handleReq cfg0 gzipZeroReq false) =
        [RespBody.errGzipReader] := by
  refine ⟨⟨rfl, rfl, Or.inr rfl⟩, fun _ => ⟨rfl, fun _ => rfl⟩, rfl, ?_, ?_, ?_⟩
  · decide
  · decide
  · decide

/-- Claim C4 (amended): for every request that passes validation, has an empty
`Content-Encoding` and declares a zero-length body, the handler responds with
the implicit HTTP status 200 and the fixed `"OK"` body, and its whole trace is
that single write: neither the decode loop, nor the classifier, nor the
downstream consumer runs.  (The amendment excludes gzip-encoded requests: a
zero-length gzip body always fails gzip-reader construction first and is
answered 400 with the gzip-error body.) -/
theorem empty_body_short_circuit (cfg : Config) (req : HecRequest) (b : Bool)
    (h1 : headersOk req) (he : req.contentEncoding = "")
    (h0 : req.contentLength = 0) :
    handleReq cfg req b = [Action.write RespBody.ok] ∧
      respStatus (handleReq cfg req b) = some 200 ∧
      bodyWrites (handleReq cfg req b) = [RespBody.ok] ∧
      consumedBatches (handleReq cfg req b) = [] := by
  obtain ⟨hm, hct, _⟩ := h1
  have c1 : ¬ req.method ≠ "POST" := fun h => h hm
  have c2 : ¬ req.contentType ≠ "application/json" := fun h => h hct
  have c3 : ¬ (req.contentEncoding ≠ "" ∧ req.contentEncoding ≠ "gzip") :=
    fun hc => hc.1 he
  have c4 : ¬ (req.contentEncoding = "gzip" ∧ req.gzipOk = false) := by
    rintro ⟨hg, _⟩
    rw [he] at hg
    exact absurd hg (by decide)
  have heq : handleReq cfg req b = [Action.write RespBody.ok] := by
    simp only [handleReq, if_neg c1, if_neg c2, if_neg c3, if_neg c4, if_pos h0]
  exact ⟨heq, by rw [heq]; rfl, by rw [heq]; rfl, by rw [heq]; rfl⟩

/-- Witness for claim C4 (amended), at a concrete zero-length POST. -/
theorem empty_body_short_circuit_witness :
    handleReq cfg0 emptyPostReq false = [Action.write RespBody.ok] ∧
      respStatus (handleReq cfg0 emptyPostReq false) = some 200 ∧
      bodyWrites (handleReq cfg0 emptyPostReq false) = [RespBody.ok] ∧
      consumedBatches (handleReq cfg0 emptyPostReq false) = [] :=
  empty_body_short_circuit cfg0 emptyPostReq false ⟨rfl, rfl, Or.inl rfl⟩ rfl rfl

/-! ### Claims C1 and C3 -/

/-- Claim C1 counterexample: a validation-passing request whose body contains
a metric-typed Event Record (at the second position) but whose first value is
malformed.  The handler answers with the unmarshal-failure body, not the fixed
unsupported-metric body the claim requires for every request containing a
metric record at any position: the decode loop hits the malformed value
first. -/
theorem metric_anywhere_counterexample :
    headersOk malformedThenMetricReq ∧ encReaderOk malformedThenMetricReq ∧
      malformedThenMetricReq.Wf ∧
      (∃ e, BodyItem.ok e ∈ malformedThenMetricReq.body ∧ e.IsMetric = true) ∧
      bodyWrites (handleReq cfg0 malformedThenMetricReq false) ≠
        [RespBody.errUnsupportedMetricEvent] ∧
      bodyWrites (handleReq cfg0 malformedThenMetricReq false) =
        [RespBody.errUnmarshalBody] := by
  refine ⟨⟨rfl, rfl, Or.inl rfl⟩, fun _ => rfl, ?_, ?_, ?_, ?_⟩
  · intro h
    exact absurd h (by decide)
  · exact ⟨metricEv, List.Mem.tail _ (List.Mem.head _), rfl⟩
  · decide
  · decide

/-- Claim C1 (amended): for every validation-passing request whose body
contains a metric-typed Event Record that no malformed value precedes — in
particular when every earlier record is a valid log event — the handler
responds with HTTP status 400 and the fixed unsupported-metric body, and the
Downstream Consumer is never invoked for that request. -/
theorem metric_event_rejects_request (cfg : Config) (req : HecRequest)
    (b : Bool) (pre : List BodyItem) (m : SplunkEvent) (rest : List BodyItem)
    (h1 : headersOk req) (h2 : encReaderOk req) (hw : req.Wf)
    (hbody : req.body = pre ++ BodyItem.ok m :: rest)
    (hm : m.IsMetric = true)
    (hpre : ∀ x ∈ pre, ∃ e, x = BodyItem.ok e ∧ e.IsMetric = false) :
    respStatus (handleReq cfg req b) = some 400 ∧
      bodyWrites (handleReq cfg req b) =
        [RespBody.errUnsupportedMetricEvent] ∧
      consumedBatches (handleReq cfg req b) = [] := by
  have h3 : req.contentLength ≠ 0 := by
    intro h0
    have hnil := (hw h0).1
    rw [hbody] at hnil
    exact absurd hnil (by simp)
  have hdec : decodeLoop req.body = Except.error DecodeErr.unsupportedMetric := by
    rw [hbody]
    exact decodeLoop_append_metric pre m rest hpre hm
  have he := handleReq_decode_metric cfg req b h1 h2 h3 hdec
  exact ⟨by rw [he]; rfl, by rw [he]; rfl, by rw [he]; rfl⟩

/-- Witness for claim C1 (amended): a valid log event followed by a metric
event is answered 400 with the unsupported-metric body and nothing is
consumed. -/
theorem metric_event_rejects_request_witness :
    respStatus (handleReq cfg0 logThenMetricReq false) = some 400 ∧
      bodyWrites (handleReq cfg0 logThenMetricReq false) =
        [RespBody.errUnsupportedMetricEvent] ∧
      consumedBatches (handleReq cfg0 logThenMetricReq false) = [] :=
  metric_event_rejects_request cfg0 logThenMetricReq false
    [BodyItem.ok logEv] metricEv []
    ⟨rfl, rfl, Or.inl rfl⟩ (fun _ => rfl)
    (fun h => absurd h (by decide)) rfl rfl
    (by
      intro x hx
      cases hx with
      | head => exact ⟨logEv, rfl, rfl⟩
      | tail _ h => cases h)

/-- Claim C3 counterexample: a validation-passing request whose body contains
a malformed value (at the second position) but whose first value is a
metric-typed record.  The handler answers with the unsupported-metric body,
not the fixed unmarshal-failure body the claim requires for every request
containing a malformed value: the decode loop rejects the metric record
first (a metric record parses successfully, so the claim's "even if values
earlier in the stream parsed successfully" covers this body). -/
theorem malformed_anywhere_counterexample :
    headersOk metricThenMalformedReq ∧ encReaderOk metricThenMalformedReq ∧
      metricThenMalformedReq.Wf ∧
      BodyItem.malformed ∈ metricThenMalformedReq.body ∧
      bodyWrites (handleReq cfg0 metricThenMalformedReq false) ≠
        [RespBody.errUnmarshalBody] ∧
      bodyWrites (handleReq cfg0 metricThenMalformedReq false) =
        [RespBody.errUnsupportedMetricEvent] := by
  refine ⟨⟨rfl, rfl, Or.inl rfl⟩, fun _ => rfl, ?_, ?_, ?_, ?_⟩
  · intro h
    exact absurd h (by decide)
  · exact List.Mem.tail _ (List.Mem.head _)
  · decide
  · decide

/-- Claim C3 (amended): for every validation-passing request whose body
contains a value that fails to parse as a well-formed Event Record and that no
metric-typed record precedes — in particular when every earlier value parsed
as a valid log event — the handler aborts the whole request with HTTP status
400 and the fixed unmarshal-failure body, and no batch is delivered
downstream: no partial acceptance of the values decoded so far. -/
theorem malformed_value_rejects_request (cfg : Config) (req : HecRequest)
    (b : Bool) (pre : List BodyItem) (rest : List BodyItem)
    (h1 : headersOk req) (h2 : encReaderOk req) (hw : req.Wf)
    (hbody : req.body = pre ++ BodyItem.malformed :: rest)
    (hpre : ∀ x ∈ pre, ∃ e, x = BodyItem.ok e ∧ e.IsMetric = false) :
    respStatus (handleReq cfg req b) = some 400 ∧
      bodyWrites (handleReq cfg req b) = [RespBody.errUnmarshalBody] ∧
      consumedBatches (handleReq cfg req b) = [] := by
  have h3 : req.contentLength ≠ 0 := by
    intro h0
    have hnil := (hw h0).1
    rw [hbody] at hnil
    exact absurd hnil (by simp)
  have hdec : decodeLoop req.body = Except.error DecodeErr.unmarshal := by
    rw [hbody]
    exact decodeLoop_append_malformed pre rest hpre
  have he := handleReq_decode_unmarshal cfg req b h1 h2 h3 hdec
  exact ⟨by rw [he]; rfl, by rw [he]; rfl, by rw [he]; rfl⟩

/-- Witness for claim C3 (amended): a valid log event followed by a malformed
value is answered 400 with the unmarshal-failure body and nothing is
consumed. -/
theorem malformed_value_rejects_request_witness :
    respStatus (handleReq cfg0 logThenMalformedReq false) = some 400 ∧
      bodyWrites (handleReq cfg0 logThenMalformedReq false) =
        [RespBody.errUnmarshalBody] ∧
      consumedBatches (handleReq cfg0 logThenMalformedReq false) = [] :=
  malformed_value_rejects_request cfg0 logThenMalformedReq false
    [BodyItem.ok logEv] []
    ⟨rfl, rfl, Or.inl rfl⟩ (fun _ => rfl)
    (fun h => absurd h (by decide)) rfl
    (by
      intro x hx
      cases hx with
      | head => exact ⟨logEv, rfl, rfl⟩
      | tail _ h => cases h)

/-! ### Claims C2, C6 and C10 -/

/-- Claim C2: for every request whose body decodes to the accepted log Event
Records `events` (possibly none), the batch handed to the Downstream Consumer
is the only batch of the request and contains exactly one resource, exactly
one scope, and one log record per accepted Event Record — body set to the raw
event body, attributes to the event's field mapping — in the same order as
the records appeared in the request body. -/
theorem batch_one_resource_one_scope_ordered (cfg : Config) (req : HecRequest)
    (b : Bool) (events : List SplunkEvent)
    (h1 : headersOk req) (h2 : encReaderOk req) (h3 : req.contentLength ≠ 0)
    (hdec : decodeLoop req.body = Except.ok events) :
    ∃ res, consumedBatches (handleReq cfg req b) =
      [{ resourceLogs :=
          [{ resource := res
             ills := [{ logs := events.map toLogRecord }] }] }] := by
  refine ⟨mkResource cfg req, ?_⟩
  rw [handleReq_decode_ok cfg req b events h1 h2 h3 hdec]
  cases b <;> rfl

/-- Witness for claim C2, at a request of two concrete log events. -/
theorem batch_one_resource_one_scope_ordered_witness :
    ∃ res, consumedBatches (handleReq cfg0 twoLogsReq false) =
      [{ resourceLogs :=
          [{ resource := res
             ills := [{ logs := [logEv, logEv].map toLogRecord }] }] }] :=
  batch_one_resource_one_scope_ordered cfg0 twoLogsReq false [logEv, logEv]
    ⟨rfl, rfl, Or.inl rfl⟩ (fun _ => rfl)
    (fun h => absurd h (by decide)) rfl

/-- Claim C6: for every request whose batch is handed to the Downstream
Consumer and for which the consumer returns a failure, the handler responds
with HTTP status 500 and the fixed internal-server-error body, hands the
consumer exactly one batch (no retry), and the tracing span status set by
`failRequest` is `internal` — `invalidArgument` is never set. -/
theorem downstream_failure_500_internal (cfg : Config) (req : HecRequest)
    (events : List SplunkEvent)
    (h1 : headersOk req) (h2 : encReaderOk req) (h3 : req.contentLength ≠ 0)
    (hdec : decodeLoop req.body = Except.ok events) :
    respStatus (handleReq cfg req true) = some 500 ∧
      bodyWrites (handleReq cfg req true) = [RespBody.errNextConsumer] ∧
      (consumedBatches (handleReq cfg req true)).length = 1 ∧
      spanStatuses (handleReq cfg req true) = [SpanCode.internal] ∧
      SpanCode.invalidArgument ∉ spanStatuses (handleReq cfg req true) := by
  have he := handleReq_decode_ok cfg req true events h1 h2 h3 hdec
  refine ⟨by rw [he]; rfl, by rw [he]; rfl, by rw [he]; rfl,
    by rw [he]; rfl, ?_⟩
  rw [he]
  simp [spanStatuses, failRequest]

/-- Witness for claim C6, at a request of two concrete log events whose
consumer call fails. -/
theorem downstream_failure_500_internal_witness :
    respStatus (handleReq cfg0 twoLogsReq true) = some 500 ∧
      bodyWrites (handleReq cfg0 twoLogsReq true) = [RespBody.errNextConsumer] ∧
      (consumedBatches (handleReq cfg0 twoLogsReq true)).length = 1 ∧
      spanStatuses (handleReq cfg0 twoLogsReq true) = [SpanCode.internal] ∧
      SpanCode.invalidArgument ∉ spanStatuses (handleReq cfg0 twoLogsReq true) :=
  downstream_failure_500_internal cfg0 twoLogsReq [logEv, logEv]
    ⟨rfl, rfl, Or.inl rfl⟩ (fun _ => rfl)
    (fun h => absurd h (by decide)) rfl

/-- Claim C10: the empty-body short-circuit applies only when the declared
`ContentLength` is exactly 0.  For every request that passes validation, has a
declared length different from 0 (for example `-1` under chunked transfer
encoding), and whose body stream contains zero JSON values, the handler
assembles an empty batch — one resource, one scope, zero records — invokes
the Downstream Consumer with it, and on consumer success responds with HTTP
status 202 rather than 200. -/
theorem nonzero_length_empty_stream_202 (cfg : Config) (req : HecRequest)
    (h1 : headersOk req) (h2 : encReaderOk req) (h3 : req.contentLength ≠ 0)
    (hb : req.body = []) :
    respStatus (handleReq cfg req false) = some 202 ∧
      bodyWrites (handleReq cfg req false) = [RespBody.ok] ∧
      ∃ res, consumedBatches (handleReq cfg req false) =
        [{ resourceLogs :=
            [{ resource := res
               ills := [{ logs := [] }] }] }] := by
  have hdec : decodeLoop req.body = Except.ok [] := by
    rw [hb]
    rfl
  have he := handleReq_decode_ok cfg req false [] h1 h2 h3 hdec
  exact ⟨by rw [he]; rfl, by rw [he]; rfl,
    ⟨mkResource cfg req, by rw [he]; rfl⟩⟩

/-- Witness for claim C10, at a concrete chunked request with an empty body
stream. -/
theorem nonzero_length_empty_stream_202_witness :
    respStatus (handleReq cfg0 chunkedEmptyReq false) = some 202 ∧
      bodyWrites (handleReq cfg0 chunkedEmptyReq false) = [RespBody.ok] ∧
      ∃ res, consumedBatches (handleReq cfg0 chunkedEmptyReq false) =
        [{ resourceLogs :=
            [{ resource := res
               ills := [{ logs := [] }] }] }] :=
  nonzero_length_empty_stream_202 cfg0 chunkedEmptyReq
    ⟨rfl, rfl, Or.inl rfl⟩ (fun _ => rfl)
    (fun h => absurd h (by decide)) rfl

/-! ### Claim C8 -/

/-- Whether the decode loop of the request accepts the whole body stream. -/
def decodeSucceeds (req : HecRequest) : Bool :=
  match decodeLoop req.body with
  | Except.ok _ => true
  | Except.error _ => false

/-- Claim C8 counterexample: the accepted-empty outcome (validation-passing
request with a declared zero-length body) performs its one terminal response
write but completes no tracing span at all — the handler returns from the
short-circuit without ending the span it started — refuting "exactly one span
completion" for every request. -/
theorem span_completion_missing_counterexample :
    headersOk emptyPostReq ∧ emptyPostReq.Wf ∧
      (bodyWrites (handleReq cfg0 emptyPostReq false)).length = 1 ∧
      spanEndCount (handleReq cfg0 emptyPostReq false) = 0 ∧
      spanEndCount (handleReq cfg0 emptyPostReq false) ≠ 1 := by
  refine ⟨⟨rfl, rfl, Or.inl rfl⟩, ?_, rfl, rfl, by decide⟩
  intro _
  exact ⟨rfl, fun h => absurd h (by decide)⟩

/-- Claim C8 (amended): every request, regardless of outcome, produces exactly
one terminal response write — in particular never both a success body and a
failure body.  The handler however does not complete exactly one tracing span
on every path: it completes none on the accepted-empty short-circuit
(zero declared length), issues two span completions on downstream failure
(the receive-operation end inside `EndMetricsReceiveOp` and the `End` of
`failRequest`), and completes exactly one span on every other path. -/
theorem one_write_per_request_span_count (cfg : Config) (req : HecRequest)
    (b : Bool) :
    (bodyWrites (handleReq cfg req b)).length = 1 ∧
      spanEndCount (handleReq cfg req b) =
        (if req.method ≠ "POST" then 1
         else if req.contentType ≠ "application/json" then 1
         else if req.contentEncoding ≠ "" ∧ req.contentEncoding ≠ "gzip" then 1
         else if req.contentEncoding = "gzip" ∧ req.gzipOk = false then 1
         else if req.contentLength = 0 then 0
         else if decodeSucceeds req && b then 2
         else 1) := by
  by_cases h1 : req.method ≠ "POST"
  · simp only [handleReq, if_pos h1]
    exact ⟨rfl, rfl⟩
  · by_cases h2 : req.contentType ≠ "application/json"
    · simp only [handleReq, if_neg h1, if_pos h2]
      exact ⟨rfl, rfl⟩
    · by_cases h3 : req.contentEncoding ≠ "" ∧ req.contentEncoding ≠ "gzip"
      · simp only [handleReq, if_neg h1, if_neg h2, if_pos h3]
        exact ⟨rfl, rfl⟩
      · by_cases h4 : req.contentEncoding = "gzip" ∧ req.gzipOk = false
        · simp only [handleReq, if_neg h1, if_neg h2, if_neg h3, if_pos h4]
          exact ⟨rfl, rfl⟩
        · by_cases h5 : req.contentLength = 0
          · simp only [handleReq, if_neg h1, if_neg h2, if_neg h3, if_neg h4,
              if_pos h5]
            exact ⟨rfl, rfl⟩
          · simp only [handleReq, if_neg h1, if_neg h2, if_neg h3, if_neg h4,
              if_neg h5, decodeSucceeds]
            split <;> rename_i heq <;> cases b <;>
              simp [bodyWrites, spanEndCount, failRequest, heq]

/-! ### Claim C9 -/

/-- Claim C9 counterexample: `splunkReceiver.Shutdown` terminates the server
with `Close`, which returns while an in-flight handler is still unfinished —
it does not wait for in-flight request handlers before returning. -/
theorem shutdown_no_drain_counterexample :
    splunkShutdownOp = ServerStopOp.close ∧
      inflightAtReturn splunkShutdownOp 1 ≠ 0 ∧
      waitsForInflight splunkShutdownOp ≠ true := by
  refine ⟨rfl, ?_, ?_⟩ <;> decide

/-- Claim C9 (amended): Shutdown closes the listener, but it does so with
`http.Server.Close`, which tears down active connections immediately and
returns without waiting for in-flight request handlers: however many handlers
are in flight when Shutdown is called, that many are still unfinished when it
returns, so a request already past validation is not guaranteed to complete
its downstream consumer call. -/
theorem shutdown_closes_without_drain (n : Nat) :
    closesListener splunkShutdownOp = true ∧
      inflightAtReturn splunkShutdownOp n = n ∧
      waitsForInflight splunkShutdownOp = false :=
  ⟨rfl, rfl, rfl⟩

end SplunkHec

namespace AzureEventHub

/-! ### Claim C7 -/

mutual

theorem newValueFromRaw_sound : ∀ v : RawValue,
    ((newValueFromRaw v).snd = none ↔ v.supported = true) ∧
      (v.supported = false →
        newValueFromRaw v = (PValue.empty, some unsupportedTypeErr))
  | RawValue.null => by simp [newValueFromRaw, RawValue.supported]
  | RawValue.str s => by simp [newValueFromRaw, RawValue.supported]
  | RawValue.int n => by simp [newValueFromRaw, RawValue.supported]
  | RawValue.i8 n => by simp [newValueFromRaw, RawValue.supported]
  | RawValue.i16 n => by simp [newValueFromRaw, RawValue.supported]
  | RawValue.i32 n => by simp [newValueFromRaw, RawValue.supported]
  | RawValue.i64 n => by simp [newValueFromRaw, RawValue.supported]
  | RawValue.uint n => by simp [newValueFromRaw, RawValue.supported]
  | RawValue.u8 n => by simp [newValueFromRaw, RawValue.supported]
  | RawValue.u16 n => by simp [newValueFromRaw, RawValue.supported]
  | RawValue.u32 n => by simp [newValueFromRaw, RawValue.supported]
  | RawValue.u64 n => by simp [newValueFromRaw, RawValue.supported]
  | RawValue.f32 bits => by simp [newValueFromRaw, RawValue.supported]
  | RawValue.f64 bits => by simp [newValueFromRaw, RawValue.supported]
  | RawValue.bool b => by simp [newValueFromRaw, RawValue.supported]
  | RawValue.bytes bs => by simp [newValueFromRaw, RawValue.supported]
  | RawValue.map kvs => by
      have h := convEntries_sound kvs
      cases hc : convEntries kvs with
      | some pkvs =>
          have hs : supportedEntries kvs = true := by
            apply h.mp
            rw [hc]
            rfl
          simp [newValueFromRaw, hc, RawValue.supported, hs]
      | none =>
          have hs : supportedEntries kvs = false := by
            cases hsup : supportedEntries kvs
            · rfl
            · have := h.mpr hsup
              rw [hc] at this
              exact absurd this (by simp)
          simp [newValueFromRaw, hc, RawValue.supported, hs]
  | RawValue.seq xs => by
      have h := convList_sound xs
      cases hc : convList xs with
      | some pxs =>
          have hs : supportedList xs = true := by
            apply h.mp
            rw [hc]
            rfl
          simp [newValueFromRaw, hc, RawValue.supported, hs]
      | none =>
          have hs : supportedList xs = false := by
            cases hsup : supportedList xs
            · rfl
            · have := h.mpr hsup
              rw [hc] at this
              exact absurd this (by simp)
          simp [newValueFromRaw, hc, RawValue.supported, hs]
  | RawValue.unsupported tag => by simp [newValueFromRaw, RawValue.supported]

theorem convEntries_sound : ∀ kvs : List (String × RawValue),
    ((convEntries kvs).isSome = true ↔ supportedEntries kvs = true)
  | [] => by simp [convEntries, supportedEntries]
  | (k, v) :: rest => by
      have hv := newValueFromRaw_sound v
      have hr := convEntries_sound rest
      cases hnv : newValueFromRaw v with
      | mk pv err =>
        cases err with
        | none =>
            have hvs : v.supported = true := by
              apply hv.1.mp
              rw [hnv]
            cases hrest : convEntries rest with
            | some prest =>
                have hrs : supportedEntries rest = true := by
                  apply hr.mp
                  rw [hrest]
                  rfl
                simp [convEntries, hnv, hrest, supportedEntries, hvs, hrs]
            | none =>
                have hrs : supportedEntries rest = false := by
                  cases hsup : supportedEntries rest
                  · rfl
                  · have := hr.mpr hsup
                    rw [hrest] at this
                    exact absurd this (by simp)
                simp [convEntries, hnv, hrest, supportedEntries, hvs, hrs]
        | some msg =>
            have hvs : v.supported = false := by
              cases hs : v.supported
              · rfl
              · have := hv.1.mpr hs
                rw [hnv] at this
                exact absurd this (by simp)
            simp [convEntries, hnv, supportedEntries, hvs]

theorem convList_sound : ∀ xs : List RawValue,
    ((convList xs).isSome = true ↔ supportedList xs = true)
  | [] => by simp [convList, supportedList]
  | v :: rest => by
      have hv := newValueFromRaw_sound v
      have hr := convList_sound rest
      cases hnv : newValueFromRaw v with
      | mk pv err =>
        cases err with
        | none =>
            have hvs : v.supported = true := by
              apply hv.1.mp
              rw [hnv]
            cases hrest : convList rest with
            | some prest =>
                have hrs : supportedList rest = true := by
                  apply hr.mp
                  rw [hrest]
                  rfl
                simp [convList, hnv, hrest, supportedList, hvs, hrs]
            | none =>
                have hrs : supportedList rest = false := by
                  cases hsup : supportedList rest
                  · rfl
                  · have := hr.mpr hsup
                    rw [hrest] at this
                    exact absurd this (by simp)
                simp [convList, hnv, hrest, supportedList, hvs, hrs]
        | some msg =>
            have hvs : v.supported = false := by
              cases hs : v.supported
              · rfl
              · have := hv.1.mpr hs
                rw [hnv] at this
                exact absurd this (by simp)
            simp [convList, hnv, supportedList, hvs]

end

/-- Claim C7: the conversion from an untyped dynamic value to the tagged
Value union succeeds (returns no error) exactly for the values of the closed
supported set — null, string, signed and unsigned integers of all widths,
32/64-bit floats, bool, byte sequences, and string-keyed mappings and
sequences all of whose members are themselves supported — and for any value
outside that set it returns the explicit unsupported-type error together with
an empty Value, never a partially-converted value. -/
theorem conversion_total_and_empty_on_error (v : RawValue) :
    ((newValueFromRaw v).snd = none ↔ v.supported = true) ∧
      (v.supported = false →
        newValueFromRaw v = (PValue.empty, some unsupportedTypeErr)) :=
  newValueFromRaw_sound v

/-- Witness for claim C7: an unsupported reference converts to the empty
Value with the explicit error, and a concrete supported mapping converts
without error. -/
theorem conversion_total_and_empty_on_error_witness :
    newValueFromRaw (RawValue.unsupported "Config") =
        (PValue.empty, some unsupportedTypeErr) ∧
      (newValueFromRaw
        (RawValue.map [("foo", RawValue.str "bar")])).snd = none :=
  ⟨(conversion_total_and_empty_on_error (RawValue.unsupported "Config")).2 rfl,
   (conversion_total_and_empty_on_error
      (RawValue.map [("foo", RawValue.str "bar")])).1.mpr rfl⟩

end AzureEventHub
